import Mathlib

/-!
Verification development for the sapf~ Max/MSP external
(`source/projects/sapf_tilde/sapf_tilde.cpp`, final revision in the file).

The bridge between the sapf interpreter (an external collaborator) and the
Max audio host is shallowly embedded here:

* interpreter values are modelled by `SapfValue`, carrying exactly the
  shallow observations the C code makes on them (`isReal`, `isObject`,
  `TypeName`, `isZIn`, `isList`, `isFinite`, the element array);
* the interpreter itself (compile / execute / lazy stream contents) is an
  oracle record `Interp`;
* audio samples are modelled as integers: the claims under study concern
  only zero / non-zero samples and data flow, never floating-point
  rounding.
-/

namespace SapfTilde

/-- Shallow embedding of the interpreter value type `V`.  The external only
ever inspects a value through `isReal`, `isObject`, `o()->TypeName()`,
`isZIn`, `isList`, `isFinite` and (for lists) the `mArray` element vector,
so a value is modelled by precisely those observations.  `zin` records what
the interpreter's `isZIn()` predicate answers for the value (the code's own
comment at `sapf_processAudioResult` notes that `isZIn()` is `false` for
reals). -/
inductive SapfValue where
  | real (x : Int)
  | obj (tyName : String) (zin : Bool) (uid : Nat)
  | vlist (tyName : String) (zin : Bool) (finite : Bool) (elems : List SapfValue)
  deriving Repr

mutual

/-- Boolean equality on embedded values (hand-rolled: the nested `List`
occurrence defeats the derive handler). -/
def SapfValue.beq : SapfValue → SapfValue → Bool
  | .real a, .real b => a == b
  | .obj n z u, .obj n2 z2 u2 => n == n2 && z == z2 && u == u2
  | .vlist n z f es, .vlist n2 z2 f2 es2 =>
      n == n2 && z == z2 && f == f2 && SapfValue.beqList es es2
  | _, _ => false

/-- Pointwise `SapfValue.beq` on lists. -/
def SapfValue.beqList : List SapfValue → List SapfValue → Bool
  | [], [] => true
  | a :: as, b :: bs => SapfValue.beq a b && SapfValue.beqList as bs
  | _, _ => false

end

mutual

theorem SapfValue.beq_iff : ∀ a b : SapfValue, SapfValue.beq a b = true ↔ a = b
  | .real a, .real b => by simp [SapfValue.beq]
  | .real _, .obj _ _ _ => by simp [SapfValue.beq]
  | .real _, .vlist _ _ _ _ => by simp [SapfValue.beq]
  | .obj _ _ _, .real _ => by simp [SapfValue.beq]
  | .obj n z u, .obj n2 z2 u2 => by simp [SapfValue.beq, and_assoc]
  | .obj _ _ _, .vlist _ _ _ _ => by simp [SapfValue.beq]
  | .vlist _ _ _ _, .real _ => by simp [SapfValue.beq]
  | .vlist _ _ _ _, .obj _ _ _ => by simp [SapfValue.beq]
  | .vlist n z f es, .vlist n2 z2 f2 es2 => by
      simp [SapfValue.beq, SapfValue.beqList_iff es es2, and_assoc]

theorem SapfValue.beqList_iff :
    ∀ as bs : List SapfValue, SapfValue.beqList as bs = true ↔ as = bs
  | [], [] => by simp [SapfValue.beqList]
  | [], _ :: _ => by simp [SapfValue.beqList]
  | _ :: _, [] => by simp [SapfValue.beqList]
  | a :: as, b :: bs => by
      simp [SapfValue.beqList, SapfValue.beq_iff a b, SapfValue.beqList_iff as bs]

end

instance : DecidableEq SapfValue := fun a b =>
  decidable_of_iff _ (SapfValue.beq_iff a b)

namespace SapfValue

/-- Embeds `V::isReal()`. -/
def isReal : SapfValue → Bool
  | .real _ => true
  | _ => false

/-- Embeds `V::isObject()`. -/
def isObject : SapfValue → Bool
  | .real _ => false
  | _ => true

/-- Embeds `o()->TypeName()`; the code only calls it behind an `isObject` guard. -/
def typeName : SapfValue → String
  | .real _ => "Real"
  | .obj ty _ _ => ty
  | .vlist ty _ _ _ => ty

/-- Embeds `V::isZIn()`; `false` on reals, as the source comment asserts. -/
def isZIn : SapfValue → Bool
  | .real _ => false
  | .obj _ z _ => z
  | .vlist _ z _ _ => z

/-- Embeds `V::isList()`. -/
def isList : SapfValue → Bool
  | .vlist _ _ _ _ => true
  | _ => false

/-- Embeds `List::isFinite()`; only called on list values. -/
def isFinite : SapfValue → Bool
  | .vlist _ _ f _ => f
  | _ => false

/-- The `mArray` element vector of a list value; `[]` otherwise. -/
def elems : SapfValue → List SapfValue
  | .vlist _ _ _ es => es
  | _ => []

end SapfValue

/-- The `TypeName` of a single-channel audio stream object. -/
def zlistName : String := "ZList"

/-- The `TypeName` of a value list object. -/
def vlistName : String := "VList"

/-- A `ZIn` pull-cursor: the value it was `set` from plus the remaining
samples of the underlying lazy stream.  `fill` consumes from
`remaining`. -/
structure ZIn where
  src : Option SapfValue
  remaining : List Int
  deriving Repr, DecidableEq

/-- Default-constructed `ZIn()`: bound to nothing, produces no samples. -/
def ZIn.empty : ZIn := { src := none, remaining := [] }

/-- Embeds `ZIn::set(v)`: bind the cursor to `v`.  `samples` is the interpreter
oracle giving the lazy stream contents of a value. -/
def ZIn.set (samples : SapfValue → List Int) (v : SapfValue) : ZIn :=
  { src := some v, remaining := samples v }

/-- The audio-session fields of `t_sapf` shared with the audio thread:
the legacy single-channel extractor, the eight per-channel extractors,
and the three `t_int32_atomic` scalars. -/
structure AudioState where
  audioExtractor : ZIn
  audioExtractors : List ZIn
  numAudioChannels : Int
  hasValidAudio : Bool
  audioStateVersion : Nat
  deriving Repr, DecidableEq

/-- The audio state as initialised by `sapf_new`. -/
def AudioState.init : AudioState :=
  { audioExtractor := ZIn.empty,
    audioExtractors := List.replicate 8 ZIn.empty,
    numAudioChannels := 0,
    hasValidAudio := false,
    audioStateVersion := 0 }

/-- The C `AudioProcessingResult` struct. -/
structure AudioProcessingResult where
  success : Bool
  hasValidAudio : Bool
  numChannels : Int
  errorMessage : String
  deriving Repr, DecidableEq

/-- The per-element audio test in the channel loop of
`sapf_handleMultiChannelAudio`: an element counts as an audio channel
iff it is an object whose `TypeName` is `"ZList"` (reals are explicitly
not audio). -/
def isChannelAudio (c : SapfValue) : Bool :=
  c.isObject && (c.typeName == zlistName)

/-- Debug post emitted for each examined element of the channel loop. -/
def dbgChannelMsg (i : Nat) : String :=
  "DEBUG - Processing channel " ++ toString i ++ ", type check completed"

/-- Debug post reporting the truncated channel count. -/
def dbgNumChannelsMsg (k : Nat) : String :=
  "DEBUG - numChannels calculated: " ++ toString k

/-- Success post of the multi-channel path (sic: `playbook`). -/
def multiReadyMsg (k : Nat) : String :=
  toString k ++ "-channel audio result ready for playbook"

/-- Post of the mixed-element fallback path. -/
def fallbackMsg : String :=
  "List contains non-audio elements - using single channel fallback"

/-- Error message of the empty-list path. -/
def emptyListMsg : String := "Empty list - no audio channels"

/-- Post of the infinite-list path. -/
def infiniteMsg : String := "Infinite list treated as single-channel audio"

/-- The `for (int i = 0; i < numChannels; i++)` loop of
`sapf_handleMultiChannelAudio`: element `i` is type-checked; an audio
element is bound into `audioExtractors[i]` and the loop continues; a
non-audio element stops the loop with `allAudioCompatible = false`,
keeping the extractors bound so far.  Returns the updated extractor
array, the `allAudioCompatible` flag, and the posts emitted. -/
def sapf_channelLoop (samples : SapfValue → List Int) :
    List ZIn → Nat → List SapfValue → List ZIn × Bool × List String
  | extrs, _, [] => (extrs, true, [])
  | extrs, i, c :: rest =>
      if isChannelAudio c then
        let r := sapf_channelLoop samples (extrs.set i (ZIn.set samples c)) (i + 1) rest
        (r.1, r.2.1, dbgChannelMsg i :: r.2.2)
      else (extrs, false, [dbgChannelMsg i])

/-- Embeds `sapf_handleMultiChannelAudio`: classify a list execution result.
A finite list is truncated to `min(size, 8)` channels; if every one of
those leading elements is audio, the session is published with that
channel count; a non-audio element among them triggers the
single-channel whole-list fallback; an empty list invalidates the
session; a non-finite list becomes a single channel.  (The `mArray`
null check and the catch-all fallback are dead in the embedding, where
a finite list always carries its elements and no call throws.) -/
def sapf_handleMultiChannelAudio (samples : SapfValue → List Int)
    (st : AudioState) (v : SapfValue) :
    AudioState × AudioProcessingResult × List String :=
  if v.isList && v.isFinite then
    let channels := v.elems
    let numChannels : Nat := min channels.length 8
    if 0 < numChannels then
      let looped := sapf_channelLoop samples st.audioExtractors 0 (channels.take numChannels)
      if looped.2.1 then
        ({ st with audioExtractors := looped.1,
                   numAudioChannels := (numChannels : Int),
                   hasValidAudio := true },
         { success := true, hasValidAudio := true,
           numChannels := (numChannels : Int), errorMessage := "" },
         dbgNumChannelsMsg numChannels :: looped.2.2 ++ [multiReadyMsg numChannels])
      else
        ({ st with audioExtractors := looped.1,
                   audioExtractor := ZIn.set samples v,
                   numAudioChannels := 1,
                   hasValidAudio := true },
         { success := true, hasValidAudio := true, numChannels := 1,
           errorMessage := "" },
         dbgNumChannelsMsg numChannels :: looped.2.2 ++ [fallbackMsg])
    else
      ({ st with hasValidAudio := false },
       { success := false, hasValidAudio := false, numChannels := 0,
         errorMessage := emptyListMsg },
       [dbgNumChannelsMsg numChannels, emptyListMsg])
  else
    ({ st with audioExtractor := ZIn.set samples v,
               numAudioChannels := 1, hasValidAudio := true },
     { success := true, hasValidAudio := true, numChannels := 1,
       errorMessage := "" },
     [infiniteMsg])

/-- Successful single-channel `AudioProcessingResult`. -/
def singleOk : AudioProcessingResult :=
  { success := true, hasValidAudio := true, numChannels := 1,
    errorMessage := "" }

/-- Post of the `isZIn` single-channel path. -/
def singleReadyMsg : String :=
  "Single-channel audio result ready for playback"

/-- Post of the `VList`/`ZList` single-channel path. -/
def listReadyMsg : String :=
  "Single-channel audio result (list) ready for playback"

/-- Post of the single-element-list path. -/
def singleElemMsg : String :=
  "Single-element list treated as single-channel audio"

/-- Error message of the non-audio path. -/
def notAudioMsg : String :=
  "Code executed but result is not audio-compatible"

/-- Embeds `sapf_processAudioResult`: dispatch on the top-of-stack value, in the
source's branch order: `isZIn` first, then `TypeName` in
`{VList, ZList}`, then lists (delegating finite lists with more than one
element to `sapf_handleMultiChannelAudio`), otherwise the non-audio
path, which invalidates the session.  The defensive try/catch
scaffolding collapses in the embedding.  Note that only the first two
branches bump `audioStateVersion`. -/
def sapf_processAudioResult (samples : SapfValue → List Int)
    (st : AudioState) (v : SapfValue) :
    AudioState × AudioProcessingResult × List String :=
  if v.isZIn then
    ({ st with audioExtractor := ZIn.set samples v,
               numAudioChannels := 1,
               audioStateVersion := st.audioStateVersion + 1,
               hasValidAudio := true }, singleOk, [singleReadyMsg])
  else if v.typeName == vlistName || v.typeName == zlistName then
    ({ st with audioExtractor := ZIn.set samples v,
               numAudioChannels := 1,
               audioStateVersion := st.audioStateVersion + 1,
               hasValidAudio := true }, singleOk, [listReadyMsg])
  else if v.isList then
    if v.isFinite then
      if 1 < v.elems.length then
        sapf_handleMultiChannelAudio samples st v
      else
        ({ st with audioExtractor := ZIn.set samples v,
                   numAudioChannels := 1, hasValidAudio := true },
         singleOk, [singleElemMsg])
    else
      ({ st with audioExtractor := ZIn.set samples v,
                 numAudioChannels := 1, hasValidAudio := true },
       singleOk, [infiniteMsg])
  else
    ({ st with hasValidAudio := false, numAudioChannels := 0 },
     { success := false, hasValidAudio := false, numChannels := 0,
       errorMessage := notAudioMsg }, [notAudioMsg])

/-- The interpreter, the external collaborator: `compile` returns a
compiled-function handle or fails (parser failure, null function and
thrown exceptions all collapse to `none`); `execute` maps a function
and the pre-execution stack to the post-execution stack, or faults;
`samples` gives the lazy audio stream contents of a value. -/
structure Interp where
  compile : String → Option Nat
  execute : Nat → List SapfValue → Option (List SapfValue)
  samples : SapfValue → List Int

/-- The control-thread-visible fields of `t_sapf` (plus the interpreter
stack of `sapfThread`, which the external manipulates through
`stackDepth` / `top` / `clearStack`). -/
structure SapfState where
  lastSapfCode : Option String
  compiledFunction : Option Nat
  compilationError : Bool
  errorMessage : String
  stack : List SapfValue
  audio : AudioState
  offset : Int
  deriving Repr, DecidableEq

/-- The `t_sapf` state as initialised by `sapf_new`. -/
def SapfState.init : SapfState :=
  { lastSapfCode := none, compiledFunction := none,
    compilationError := false, errorMessage := "",
    stack := [], audio := AudioState.init, offset := 0 }

/-- Interpreter invocations made by the control path, recorded so that
claims can count compilations and executions. -/
inductive CtrlEvent where
  | compiledCode (text : String)
  | executedFunction (f : Nat)
  | clearedStack (depth : Nat)
  deriving Repr, DecidableEq

/-- The C `CompilationResult` struct. -/
structure CompilationResult where
  success : Bool
  compiledFunction : Option Nat
  errorMessage : String
  deriving Repr, DecidableEq

/-- Error detail recorded on a failed compilation. -/
def compileFailedMsg : String := "Compilation failed"

/-- Embeds `sapf_compileCode`: with `needsRecompilation = false` the cached
entry is served (or refused, if the cache is in error state or holds no
function) without touching any state; otherwise the error state and the
valid-audio flag are cleared, the interpreter compiles, and on success
both the function and `lastSapfCode` are updated (a failed compilation
leaves `lastSapfCode` and `compiledFunction` as they were). -/
def sapf_compileCode (I : Interp) (st : SapfState) (codeBuffer : String)
    (needsRecompilation : Bool) :
    SapfState × CompilationResult × List CtrlEvent :=
  if !needsRecompilation then
    if st.compilationError then
      (st, { success := false, compiledFunction := none,
             errorMessage := st.errorMessage }, [])
    else
      match st.compiledFunction with
      | some f =>
          (st, { success := true, compiledFunction := some f,
                 errorMessage := "" }, [])
      | none =>
          (st, { success := false, compiledFunction := none,
                 errorMessage := "" }, [])
  else
    let st1 :=
      { st with compilationError := false, errorMessage := "",
                audio := { st.audio with hasValidAudio := false } }
    match I.compile codeBuffer with
    | some f =>
        ({ st1 with compiledFunction := some f,
                    lastSapfCode := some codeBuffer },
         { success := true, compiledFunction := some f, errorMessage := "" },
         [.compiledCode codeBuffer])
    | none =>
        ({ st1 with compilationError := true,
                    errorMessage := compileFailedMsg },
         { success := false, compiledFunction := none,
           errorMessage := compileFailedMsg },
         [.compiledCode codeBuffer])

/-- The C `ExecutionResult` struct. -/
structure ExecResult where
  success : Bool
  audioResult : Option SapfValue
  stackDepth : Nat
  errorMessage : String
  deriving Repr, DecidableEq

/-- Error message of a faulted execution. -/
def execErrMsg : String := "Execution error"

/-- Error message when execution leaves the stack empty. -/
def noResultsMsg : String := "Code executed but produced no results on stack"

/-- Embeds `sapf_executeCode`: the stack is cleared first whenever it is
non-empty ("Clearing N items from stack before execution"); the function
is then applied to the emptied stack.  On success with a non-empty
result stack, the top value is read with `top()` — not popped — and
returned for audio processing; a fault invalidates the valid-audio
flag.  (After a fault the interpreter stack contents are
interpreter-defined; the embedding leaves the cleared stack.) -/
def sapf_executeCode (I : Interp) (st : SapfState) (f : Nat) :
    SapfState × ExecResult × List CtrlEvent :=
  let preDepth := st.stack.length
  let clearEv : List CtrlEvent :=
    if 0 < preDepth then [.clearedStack preDepth] else []
  let st1 := { st with stack := [] }
  match I.execute f [] with
  | none =>
      ({ st1 with audio := { st1.audio with hasValidAudio := false } },
       { success := false, audioResult := none, stackDepth := 0,
         errorMessage := execErrMsg },
       clearEv ++ [.executedFunction f])
  | some stk =>
      let st2 := { st1 with stack := stk }
      match stk with
      | [] =>
          (st2, { success := false, audioResult := none, stackDepth := 0,
                  errorMessage := noResultsMsg },
           clearEv ++ [.executedFunction f])
      | v :: _ =>
          (st2, { success := true, audioResult := some v,
                  stackDepth := stk.length, errorMessage := "" },
           clearEv ++ [.executedFunction f])

/-- Index of the first occurrence of `needle` in `hay` (C `strstr`),
`none` when `needle` does not occur. -/
def firstOccur (needle : List Char) : List Char → Option Nat
  | [] => if needle.isPrefixOf ([] : List Char) then some 0 else none
  | c :: t =>
      if needle.isPrefixOf (c :: t) then some 0
      else (firstOccur needle t).map (fun n => n + 1)

/-- The token searched for by the play-command rewriting. -/
def playTok : List Char := ['p', 'l', 'a', 'y']

/-- The space-prefixed token used for truncation. -/
def spacePlayTok : List Char := [' ', 'p', 'l', 'a', 'y']

/-- The play-command rewriting step of `sapf_validateInput`, acting on
the assembled code string: if `"play"` occurs anywhere, the string is
truncated at the first occurrence of `" play"` when there is one
(rejecting only if nothing remains); with no `" play"` occurrence, a
string that begins with `"play"` is rejected; any other occurrence
leaves the string unchanged.  `none` means the submission is rejected
with an error. -/
def sapf_validatePlay (code : List Char) : Option (List Char) :=
  if (firstOccur playTok code).isSome then
    match firstOccur spacePlayTok code with
    | some i =>
        let truncated := code.take i
        if truncated.isEmpty then none else some truncated
    | none =>
        if firstOccur playTok code = some 0 then none else some code
  else some code

/-- The string-level part of `sapf_validateInput`: an empty assembled
string is rejected, then the play-command rewriting applies.  (The
atom-assembly loop producing `codeBuffer` from the Max atom list is not
modelled; `code` is the assembled buffer.) -/
def sapf_validateInput (code : String) : Option String :=
  if code.data.isEmpty then none
  else (sapf_validatePlay code.data).map (fun cs => String.mk cs)

/-- Embeds `sapf_code`: the full control-thread submission pipeline.
Phase 1 validation, phase 2 compilation (recompiling exactly when the
assembled buffer differs from `lastSapfCode`), phase 3 execution (only
for new compilations), phase 4 audio-result processing (only when
execution succeeded with a non-empty stack).  Returns the new state and
the interpreter invocations performed. -/
def sapf_code (I : Interp) (st : SapfState) (text : String) :
    SapfState × List CtrlEvent :=
  match sapf_validateInput text with
  | none => (st, [])
  | some codeBuffer =>
    let needsRecompilation : Bool :=
      match st.lastSapfCode with
      | none => true
      | some c => c != codeBuffer
    let r1 := sapf_compileCode I st codeBuffer needsRecompilation
    let st1 := r1.1
    let comp := r1.2.1
    let ev1 := r1.2.2
    if !comp.success then (st1, ev1)
    else if needsRecompilation then
      match comp.compiledFunction with
      | none => (st1, ev1)
      | some f =>
        let r2 := sapf_executeCode I st1 f
        let st2 := r2.1
        let ex := r2.2.1
        let ev2 := r2.2.2
        if ex.success then
          if 0 < ex.stackDepth then
            match ex.audioResult with
            | some v =>
                let audio3 := (sapf_processAudioResult I.samples st2.audio v).1
                ({ st2 with audio := audio3 }, ev1 ++ ev2)
            | none => (st2, ev1 ++ ev2)
          else (st2, ev1 ++ ev2)
        else (st2, ev1 ++ ev2)
    else (st1, ev1)

/-- Embeds `sapf_clear` (the `clear` message): with an empty stack nothing
happens ("Stack already empty"); otherwise the interpreter stack is
cleared and the valid-audio flag dropped.  No other field is
touched. -/
def sapf_clear (st : SapfState) : SapfState × List CtrlEvent :=
  if st.stack.isEmpty then (st, [])
  else
    ({ st with stack := [],
               audio := { st.audio with hasValidAudio := false } },
     [.clearedStack st.stack.length])

/-- Operations performed by the audio callback that the real-time-safety
claims are about. -/
inductive RenderEvent where
  /-- Records `std::vector<float> tempBuffer(n)`: a block-sized buffer obtained
  from the general-purpose allocator inside the audio callback. -/
  | heapAlloc (frames : Nat)
  /-- Records `ZIn::fill` on the legacy single-channel extractor
  `audioExtractor` — the only extractor the callback ever pulls. -/
  | fillLegacy (frames : Nat)
  /-- acquisition of a blocking lock; `sapf_perform64` contains no such
  operation, so no path of the embedding emits this event. -/
  | lockAcquire
  deriving Repr, DecidableEq

/-- Result of one audio callback: the written output block (one sample
list per output channel), the updated audio state, and the operations
performed. -/
structure RenderOut where
  outs : List (List Int)
  audio : AudioState
  events : List RenderEvent
  deriving Repr, DecidableEq

/-- A silent channel block. -/
def zeros (n : Nat) : List Int := List.replicate n 0

/-- Embeds `sapf_perform64`, the audio callback.  With the valid-audio flag set
and at least one configured channel it allocates a temporary buffer,
pulls up to `n` frames from the legacy extractor `audioExtractor` (the
per-channel `audioExtractors` are never pulled) and copies that one
mono block to every one of the `numouts` output channels, zero-padding
a short pull; a pull of zero frames, or stream end, drops the
valid-audio flag.  Without valid audio, channel 0 carries the legacy
input-plus-offset pass-through (when there is an input) and all other
channels silence.  `ins` holds the input blocks; `numouts` is the
host output channel count. -/
def sapf_perform64 (st : SapfState) (ins : List (List Int))
    (numouts n : Nat) : RenderOut :=
  if st.audio.hasValidAudio then
    -- x, x->audioThread: live in the embedding
    if 1 ≤ st.audio.numAudioChannels then
      let z := st.audio.audioExtractor
      let frameCount := min n z.remaining.length
      let isDone : Bool := decide (z.remaining.length ≤ n)
      let z2 : ZIn := { z with remaining := z.remaining.drop frameCount }
      if 0 < frameCount then
        let chanData := z.remaining.take frameCount ++ zeros (n - frameCount)
        let audio2 :=
          { st.audio with audioExtractor := z2, hasValidAudio := !isDone }
        { outs := List.replicate numouts chanData,
          audio := audio2,
          events := [.heapAlloc n, .fillLegacy n] }
      else
        let audio2 :=
          { st.audio with audioExtractor := z2, hasValidAudio := false }
        { outs := List.replicate numouts (zeros n),
          audio := audio2,
          events := [.heapAlloc n, .fillLegacy n] }
    else
      { outs := List.replicate numouts (zeros n),
        audio := st.audio, events := [] }
  else
    let passthrough :=
      (List.range n).map (fun i => (ins.headD []).getD i 0 + st.offset)
    { outs := (List.range numouts).map
        (fun c => if c == 0 && 0 < ins.length then passthrough else zeros n),
      audio := st.audio, events := [] }

/-! ### The cross-thread handoff, field by field

Claim C1 concerns the way the session state crosses from the control
thread to the audio thread.  In the source this state is *not* a single
atomically-swapped snapshot: it is three separate `t_int32_atomic`
scalars (`hasValidAudio`, `numAudioChannels`, `audioStateVersion`)
updated independently, plus the plain (non-atomic, multi-word) `ZIn`
extractor structs.  The model below records the exact store sequence a
single-channel publish performs and the exact load sequence a render
performs, and lets the two interleave arbitrarily (each individual
store is atomic; the multi-word extractor is two stores). -/

/-- The shared audio-session fields as individual memory locations.  The
non-atomic `ZIn audioExtractor` struct occupies several machine words;
two of them are modelled (`extrWordLo`, `extrWordHi`). -/
inductive AField where
  | hasValidAudio
  | numAudioChannels
  | audioStateVersion
  | extrWordLo
  | extrWordHi
  deriving Repr, DecidableEq

/-- A memory state for the shared fields. -/
def AStore := AField → Int

/-- One store to a shared field. -/
def AStore.update (s : AStore) (f : AField) (x : Int) : AStore :=
  fun g => if g = f then x else s g

/-- Apply a sequence of stores. -/
def applyWrites (s : AStore) : List (AField × Int) → AStore
  | [] => s
  | w :: ws => applyWrites (s.update w.1 w.2) ws

/-- The store sequence of one single-channel publish, in source order:
`sapf_compileCode` clears `hasValidAudio`; after execution,
`sapf_processAudioResult` runs `audioExtractor.set(...)` (the two
words of the non-atomic struct), then stores `numAudioChannels = 1`,
increments `audioStateVersion` and finally stores
`hasValidAudio = 1`. -/
def publishSingleWrites (ver lo hi : Int) : List (AField × Int) :=
  [(.hasValidAudio, 0),
   (.extrWordLo, lo), (.extrWordHi, hi),
   (.numAudioChannels, 1),
   (.audioStateVersion, ver),
   (.hasValidAudio, 1)]

/-- The load sequence of one render, in source order: `sapf_perform64`
reads `hasValidAudio`, then `numAudioChannels`, then pulls through the
`audioExtractor` struct (both words). -/
def renderReads : List AField :=
  [.hasValidAudio, .numAudioChannels, .extrWordLo, .extrWordHi]

/-- The renderer's observation under interleaving `sched`: `sched`
lists, for each render load in order, how many publish stores retired
before it.  A schedule is meaningful when it is monotone and within
the publish length (`ScheduleOk`). -/
def observe (init : AStore) (ws : List (AField × Int)) (sched : List Nat) :
    List Int :=
  (renderReads.zip sched).map (fun p => applyWrites init (ws.take p.2) p.1)

/-- The values of the shared fields, in render-read order, of one
consistent (fully published) state. -/
def projection (s : AStore) : List Int := renderReads.map s

/-- Executable check that a schedule is non-decreasing. -/
def monotoneOk : List Nat → Bool
  | [] => true
  | [_] => true
  | a :: b :: t => decide (a ≤ b) && monotoneOk (b :: t)

/-- Schedules that correspond to a real interleaving: the render loads
happen in program order while the publish stores retire one by one. -/
def ScheduleOk (ws : List (AField × Int)) (sched : List Nat) : Prop :=
  sched.length = renderReads.length ∧
  monotoneOk sched = true ∧
  ∀ k ∈ sched, k ≤ ws.length

instance (ws : List (AField × Int)) (sched : List Nat) :
    Decidable (ScheduleOk ws sched) :=
  inferInstanceAs (Decidable (_ ∧ _ ∧ _))

/-- The shared-field state after the first publish of extractor words
`(10, 11)` with version 1: a fully published single-channel session. -/
def gen1Store : AStore :=
  applyWrites (fun _ => 0) (publishSingleWrites 1 10 11)

/-! ### Concrete scenario data -/

/-- The `TypeName` used for plain list aggregates in the scenarios. -/
def listName : String := "List"

/-- An audio-stream object with identity `i` (`TypeName = "ZList"`). -/
def zl (i : Nat) : SapfValue := SapfValue.obj zlistName true i

/-- Sample oracle for the scenarios: stream `zl 0` produces
`[1, 2, 3, 4]`, stream `zl 1` produces `[5, 6, 7, 8]`, anything else is
empty. -/
def demoSamples : SapfValue → List Int := fun v =>
  if v = zl 0 then [1, 2, 3, 4] else if v = zl 1 then [5, 6, 7, 8] else []

/-- An interpreter in which every compile succeeds (handle `1`) and
execution leaves one audio stream on the stack. -/
def demoInterp : Interp :=
  { compile := fun _ => some 1,
    execute := fun _ _ => some [zl 0],
    samples := demoSamples }

/-- An interpreter whose compile always fails. -/
def failingInterp : Interp := { demoInterp with compile := fun _ => none }

/-- A finite aggregate (`List` object) of `k` audio streams. -/
def streamAgg (k : Nat) : SapfValue :=
  SapfValue.vlist listName false true ((List.range k).map zl)

/-- A mixed finite aggregate: one audio stream and one number. -/
def mixedAgg : SapfValue :=
  SapfValue.vlist listName false true [zl 0, SapfValue.real 7]

/-- Source text of the end-to-end scenarios. -/
def sinText : String := "440 0 sinosc"

/-- A malformed submission. -/
def badText : String := "440 sinosc("

/-- A submission that begins with the play token and also contains a
space-prefixed occurrence of it. -/
def playText : String := "play 440 play"

/-- The prefix of `playText` before its first `" play"` occurrence. -/
def playPrefixText : String := "play 440"

/-- Word used to check that no recorded diagnostic warns about channel
overflow. -/
def overflowWord : String := "overflow"

/-- Audio state of a live single-channel session holding four pending
samples of stream `zl 0`. -/
def validAudio1 : AudioState :=
  { AudioState.init with
    hasValidAudio := true, numAudioChannels := 1,
    audioExtractor := { src := some (zl 0), remaining := [1, 2, 3, 4] } }

/-- Object state with the single-channel session `validAudio1`. -/
def validState1 : SapfState := { SapfState.init with audio := validAudio1 }

/-- Object state after submitting `badText` to `failingInterp`. -/
def failedState : SapfState :=
  (sapf_code failingInterp SapfState.init badText).1

/-- Audio state after classifying a two-stream aggregate. -/
def agg2Audio : AudioState :=
  (sapf_handleMultiChannelAudio demoSamples AudioState.init (streamAgg 2)).1

/-- Object state carrying the two-channel session `agg2Audio`. -/
def agg2State : SapfState := { SapfState.init with audio := agg2Audio }

/-- Object state with one value left on the interpreter stack. -/
def stackState : SapfState :=
  { SapfState.init with stack := [SapfValue.real 1] }

/-- Object state with a cached program, cached source text, a non-empty
stack and a live session. -/
def fullState : SapfState :=
  { SapfState.init with
    lastSapfCode := some sinText, compiledFunction := some 3,
    stack := [SapfValue.real 1], audio := validAudio1 }

/-- Like `fullState` but with the stack already empty. -/
def emptyStackState : SapfState := { fullState with stack := [] }

/-- Number of compile invocations in an event list. -/
def countCompiled (es : List CtrlEvent) : Nat :=
  es.countP (fun e => match e with | .compiledCode _ => true | _ => false)

/-- Number of execute invocations in an event list. -/
def countExecuted (es : List CtrlEvent) : Nat :=
  es.countP (fun e => match e with | .executedFunction _ => true | _ => false)

/-! ### Helper lemmas -/

/-- Behaviour of the channel loop when every element is audio: the loop
accepts, posts one debug line per element, preserves the extractor
array length, binds extractor `i + j` to element `j`, and leaves
entries below `i` untouched. -/
theorem channelLoop_allAudio (samples : SapfValue → List Int) :
    ∀ (es : List SapfValue) (extrs : List ZIn) (i : Nat),
      (∀ c ∈ es, isChannelAudio c = true) →
      i + es.length ≤ extrs.length →
      (sapf_channelLoop samples extrs i es).2.1 = true ∧
      (sapf_channelLoop samples extrs i es).2.2
        = (List.range es.length).map (fun j => dbgChannelMsg (i + j)) ∧
      (sapf_channelLoop samples extrs i es).1.length = extrs.length ∧
      (∀ j, j < es.length → ∀ d : ZIn,
        (sapf_channelLoop samples extrs i es).1.getD (i + j) d
          = ZIn.set samples (es.getD j (SapfValue.real 0))) ∧
      (∀ j, j < i → ∀ d : ZIn,
        (sapf_channelLoop samples extrs i es).1.getD j d = extrs.getD j d)
  | [], extrs, i, _, _ => by
      simp [sapf_channelLoop]
  | c :: cs, extrs, i, hall, hlen => by
      have hc : isChannelAudio c = true := hall c (by simp)
      have hall2 : ∀ x ∈ cs, isChannelAudio x = true := fun x hx =>
        hall x (by simp [hx])
      have hlen0 : i + (cs.length + 1) ≤ extrs.length := by
        simpa using hlen
      have hlen2 :
          (i + 1) + cs.length ≤ (extrs.set i (ZIn.set samples c)).length := by
        rw [List.length_set]; omega
      have IH := channelLoop_allAudio samples cs
        (extrs.set i (ZIn.set samples c)) (i + 1) hall2 hlen2
      obtain ⟨ihA, ihB, ihC, ihD, ihE⟩ := IH
      have hi : i < extrs.length := by omega
      refine ⟨?_, ?_, ?_, ?_, ?_⟩
      · simpa [sapf_channelLoop, hc] using ihA
      · simp only [sapf_channelLoop, hc, if_pos]
        simp only [List.length_cons, List.range_succ_eq_map, List.map_cons,
          List.map_map, ihB]
        congr 1
        apply List.map_congr_left
        intro j _
        exact congrArg dbgChannelMsg (by omega)
      · simpa [sapf_channelLoop, hc, List.length_set] using ihC
      · intro j hj d
        match j with
        | 0 =>
            have h0 : (sapf_channelLoop samples
                (extrs.set i (ZIn.set samples c)) (i + 1) cs).1.getD i d
                = (extrs.set i (ZIn.set samples c)).getD i d :=
              ihE i (by omega) d
            have h1 : (extrs.set i (ZIn.set samples c)).getD i d
                = ZIn.set samples c := by
              rw [List.getD_eq_getElem?_getD,
                List.getElem?_set_eq_of_lt (ZIn.set samples c) hi]
              rfl
            simpa [sapf_channelLoop, hc] using h0.trans h1
        | j + 1 =>
            have hj2 : j < cs.length := by simpa using hj
            have := ihD j hj2 d
            have harith : i + 1 + j = i + (j + 1) := by omega
            rw [harith] at this
            simpa [sapf_channelLoop, hc] using this
      · intro j hj d
        have h0 := ihE j (by omega) d
        have h1 : (extrs.set i (ZIn.set samples c)).getD j d
            = extrs.getD j d := by
          rw [List.getD_eq_getElem?_getD, List.getD_eq_getElem?_getD,
            List.getElem?_set_ne (by omega)]
        simpa [sapf_channelLoop, hc] using h0.trans h1

/-- The channel loop rejects as soon as some examined element is not
audio. -/
theorem channelLoop_hasBad (samples : SapfValue → List Int) :
    ∀ (es : List SapfValue) (extrs : List ZIn) (i : Nat),
      (∃ c ∈ es, isChannelAudio c = false) →
      (sapf_channelLoop samples extrs i es).2.1 = false
  | [], _, _, h => by simp at h
  | c :: cs, extrs, i, h => by
      by_cases hc : isChannelAudio c
      · obtain ⟨x, hx, hbad⟩ := h
        rcases List.mem_cons.mp hx with hx | hx
        · rw [hx] at hbad; rw [hbad] at hc; cases hc
        · have := channelLoop_hasBad samples cs
            (extrs.set i (ZIn.set samples c)) (i + 1) ⟨x, hx, hbad⟩
          simpa [sapf_channelLoop, hc] using this
      · simp [sapf_channelLoop, hc]

/-- Truncation to `min (length) 8` elements is truncation to 8. -/
theorem take_min_eight {α : Type} (l : List α) :
    l.take (min l.length 8) = l.take 8 := by
  have h := List.take_take 8 l.length l
  rw [List.take_length] at h
  rw [min_comm]
  exact h.symm

/-- A non-empty needle can only be found strictly inside the haystack. -/
theorem firstOccur_lt_length :
    ∀ (needle hay : List Char) (i : Nat), needle ≠ [] →
      firstOccur needle hay = some i → i < hay.length
  | needle, [], i, hne, h => by
      match needle, hne with
      | c :: cs, _ => simp [firstOccur, List.isPrefixOf] at h
  | needle, c :: t, i, hne, h => by
      by_cases hp : needle.isPrefixOf (c :: t)
      · simp only [firstOccur, hp] at h
        simp only [if_true] at h
        have h0 : i = 0 := by
          cases h
          rfl
        simp only [List.length_cons, h0]
        omega
      · simp only [firstOccur, hp] at h
        simp only [Bool.false_eq_true, if_false] at h
        cases hocc : firstOccur needle t with
        | none => rw [hocc] at h; simp at h
        | some j =>
            rw [hocc] at h
            simp at h
            have hlt := firstOccur_lt_length needle t j hne hocc
            simp only [List.length_cons]
            omega

/-- The audio callback never writes to the per-channel extractor array:
whatever `numAudioChannels` says, only the legacy `audioExtractor` is
pulled. -/
theorem perform64_keeps_channel_extractors
    (s : SapfState) (ins : List (List Int)) (numouts n : Nat) :
    (sapf_perform64 s ins numouts n).audio.audioExtractors
      = s.audio.audioExtractors := by
  unfold sapf_perform64
  by_cases h1 : s.audio.hasValidAudio
  · by_cases h2 : 1 ≤ s.audio.numAudioChannels
    · by_cases h3 : 0 < min n s.audio.audioExtractor.remaining.length
      · simp [h1, h2, h3]
      · simp [h1, h2, h3]
    · simp [h1, h2]
  · simp [h1]

/-- The audio callback without valid audio: channel 0 carries the
legacy input-plus-offset pass-through when an input is connected, all
other channels silence. -/
theorem perform64_no_valid_audio
    (s : SapfState) (ins : List (List Int)) (numouts n : Nat)
    (h : s.audio.hasValidAudio = false) :
    (sapf_perform64 s ins numouts n).outs
      = (List.range numouts).map
          (fun c => if c == 0 && 0 < ins.length then
              (List.range n).map (fun i => (ins.headD []).getD i 0 + s.offset)
            else zeros n) := by
  unfold sapf_perform64
  rw [h]
  simp

/-! ### C1 — atomicity of the control-to-audio handoff -/

/-- C1, counterexample.  The session state is not handed off as one
never-torn unit: it crosses as independently stored per-field atomics
plus a non-atomic extractor struct.  Starting from the fully published
state `gen1Store` (extractor words `(10, 11)`), schedule the render
loads `[0, 2, 2, 2]` against the stores of a second publish (extractor
words `(20, 21)`): the renderer observes `[1, 1, 20, 11]` — the valid
flag and channel count of one snapshot combined with an extractor torn
across the two — matching neither the old nor the new published state.
This refutes the claim that, for all publish/render interleavings, the
observed channel count and extractor state are consistent as a unit. -/
theorem C1_counterexample :
    ¬ (∀ sched : List Nat,
        ScheduleOk (publishSingleWrites 2 20 21) sched →
        observe gen1Store (publishSingleWrites 2 20 21) sched
            = projection gen1Store ∨
        observe gen1Store (publishSingleWrites 2 20 21) sched
            = projection (applyWrites gen1Store (publishSingleWrites 2 20 21))) := by
  intro hclaim
  rcases hclaim [0, 2, 2, 2] (by decide) with h | h
  · exact absurd h (by decide)
  · exact absurd h (by decide)

/-- C1, amended: the publish in `sapf_compileCode` /
`sapf_processAudioResult` is a sequence of independent per-field stores
(`publishSingleWrites`), and against the render load order of
`sapf_perform64` (`renderReads`) there exists a real interleaving whose
observation matches no published snapshot — a torn snapshot is
possible, the per-field handoff does not behave as one atomic unit. -/
theorem C1_per_field_publish_admits_torn_read :
    ∃ sched : List Nat,
      ScheduleOk (publishSingleWrites 2 20 21) sched ∧
      observe gen1Store (publishSingleWrites 2 20 21) sched
          ≠ projection gen1Store ∧
      observe gen1Store (publishSingleWrites 2 20 21) sched
          ≠ projection (applyWrites gen1Store (publishSingleWrites 2 20 21)) :=
  ⟨[0, 2, 2, 2], by decide, by decide, by decide⟩

/-! ### C7 — what execution does to the interpreter stack -/

/-- C7, counterexample.  Executing with one value left on the stack
invokes the stack-clearing operation: the executor's event trace is
`[clearedStack 1, executedFunction 1]`.  This refutes the claim that
running a program never invokes a stack-clearing or stack-popping
operation. -/
theorem C7_counterexample :
    CtrlEvent.clearedStack 1 ∈ (sapf_executeCode demoInterp stackState 1).2.2 ∧
    (sapf_executeCode demoInterp stackState 1).2.2
      = [CtrlEvent.clearedStack 1, CtrlEvent.executedFunction 1] := by
  decide

/-- C7, amended: `sapf_executeCode` clears the interpreter stack
*before* execution whenever it is non-empty; after a successful
execution it reads the top value without popping, leaving the
interpreter's result stack exactly as execution produced it. -/
theorem C7_executor_clears_before_not_after
    (I : Interp) (st : SapfState) (f : Nat) :
    (st.stack ≠ [] →
      CtrlEvent.clearedStack st.stack.length ∈ (sapf_executeCode I st f).2.2) ∧
    (∀ stk, I.execute f [] = some stk → (sapf_executeCode I st f).1.stack = stk) := by
  constructor
  · intro hne
    have hpos : 0 < st.stack.length := List.length_pos.mpr hne
    unfold sapf_executeCode
    cases hex : I.execute f [] with
    | none => simp [hpos]
    | some stk => cases stk <;> simp [hpos]
  · intro stk hex
    unfold sapf_executeCode
    rw [hex]
    cases stk <;> simp

/-- C7, witness: the amended theorem applied to the concrete state with
one stacked value. -/
theorem C7_witness :
    CtrlEvent.clearedStack 1 ∈ (sapf_executeCode demoInterp stackState 1).2.2 :=
  (C7_executor_clears_before_not_after demoInterp stackState 1).1 (by decide)

/-! ### C9 — scope of the clear operation -/

/-- C9, counterexample.  `sapf_clear` on a state with a cached program,
cached source text, a non-empty stack and a live session leaves both
the cached artifact and the last-seen source text in place; and on a
state whose stack is already empty it does not even clear the audio
session.  This refutes the claim that reset clears the cached compiled
program, the execution stack and the audio session. -/
theorem C9_counterexample :
    (sapf_clear fullState).1.lastSapfCode = some sinText ∧
    (sapf_clear fullState).1.compiledFunction = some 3 ∧
    (sapf_clear emptyStackState).1.audio.hasValidAudio = true := by
  decide

/-- C9, amended: `sapf_clear` empties the interpreter stack and drops
the valid-audio flag only when the stack was non-empty; the cached
program, the last-seen source text, the channel count and the
per-channel extractors are always retained, and with an empty stack
nothing changes at all. -/
theorem C9_clear_scope (st : SapfState) :
    (sapf_clear st).1.lastSapfCode = st.lastSapfCode ∧
    (sapf_clear st).1.compiledFunction = st.compiledFunction ∧
    (sapf_clear st).1.audio.numAudioChannels = st.audio.numAudioChannels ∧
    (sapf_clear st).1.audio.audioExtractors = st.audio.audioExtractors ∧
    (sapf_clear st).1.stack = (if st.stack.isEmpty then st.stack else []) ∧
    (sapf_clear st).1.audio.hasValidAudio
      = (if st.stack.isEmpty then st.audio.hasValidAudio else false) := by
  unfold sapf_clear
  by_cases h : st.stack.isEmpty <;> simp [h]

/-! ### C2 — real-time safety of the audio callback -/

/-- C2, counterexample.  On a live single-channel session the audio
callback performs a general-purpose heap allocation
(`std::vector<float> tempBuffer(n)`) on every block: the event trace of
a 4-frame render is `[heapAlloc 4, fillLegacy 4]`.  This refutes the
claim that the render method never allocates from a general-purpose
allocator. -/
theorem C2_counterexample :
    RenderEvent.heapAlloc 4 ∈ (sapf_perform64 validState1 [] 1 4).events ∧
    (sapf_perform64 validState1 [] 1 4).events
      = [RenderEvent.heapAlloc 4, RenderEvent.fillLegacy 4] := by
  decide

/-- The event trace of the audio callback: allocation and the legacy
pull happen exactly on the live-session path; no other operation is
ever performed. -/
theorem perform64_events (st : SapfState) (ins : List (List Int))
    (numouts n : Nat) :
    (sapf_perform64 st ins numouts n).events
      = if st.audio.hasValidAudio = true ∧ 1 ≤ st.audio.numAudioChannels
        then [RenderEvent.heapAlloc n, RenderEvent.fillLegacy n]
        else [] := by
  unfold sapf_perform64
  by_cases h1 : st.audio.hasValidAudio
  · by_cases h2 : 1 ≤ st.audio.numAudioChannels
    · by_cases h3 : 0 < min n st.audio.audioExtractor.remaining.length <;>
        simp [h1, h2, h3]
    · simp [h1, h2]
  · simp [h1]

/-- The audio callback always writes a complete block: `numouts`
channels, `n` samples each. -/
theorem perform64_outs_total (st : SapfState) (ins : List (List Int))
    (numouts n : Nat) :
    (sapf_perform64 st ins numouts n).outs.length = numouts ∧
    ∀ c ∈ (sapf_perform64 st ins numouts n).outs, c.length = n := by
  unfold sapf_perform64
  by_cases h1 : st.audio.hasValidAudio
  · by_cases h2 : 1 ≤ st.audio.numAudioChannels
    · by_cases h3 : 0 < min n st.audio.audioExtractor.remaining.length
      · refine ⟨by simp [h1, h2, h3], ?_⟩
        intro c hc
        simp [h1, h2, h3, List.mem_replicate] at hc
        rw [hc.2]
        simp [zeros, List.length_take]
      · refine ⟨by simp [h1, h2, h3], ?_⟩
        intro c hc
        simp [h1, h2, h3, List.mem_replicate] at hc
        rw [hc.2]
        simp [zeros]
    · refine ⟨by simp [h1, h2], ?_⟩
      intro c hc
      simp [h1, h2, List.mem_replicate] at hc
      rw [hc.2]
      simp [zeros]
  · refine ⟨by simp [h1], ?_⟩
    intro c hc
    simp [h1, List.mem_map] at hc
    obtain ⟨x, _, hcx⟩ := hc
    rw [hcx.symm]
    by_cases hb : x = 0 ∧ 0 < ins.length <;> simp [hb, zeros]

/-- C2, amended: the audio callback never acquires a blocking lock and
always produces a fully written output block (`numouts` channels of `n`
samples each, degrading to silence on every fault path), but on every
block with a live session and at least one channel it *does* allocate a
block-sized temporary buffer from the general-purpose allocator. -/
theorem C2_render_never_locks_but_allocates
    (st : SapfState) (ins : List (List Int)) (numouts n : Nat) :
    RenderEvent.lockAcquire ∉ (sapf_perform64 st ins numouts n).events ∧
    (st.audio.hasValidAudio = true → 1 ≤ st.audio.numAudioChannels →
      RenderEvent.heapAlloc n ∈ (sapf_perform64 st ins numouts n).events) ∧
    (sapf_perform64 st ins numouts n).outs.length = numouts ∧
    (∀ c ∈ (sapf_perform64 st ins numouts n).outs, c.length = n) := by
  refine ⟨?_, ?_, (perform64_outs_total st ins numouts n).1,
    (perform64_outs_total st ins numouts n).2⟩
  · rw [perform64_events]
    by_cases h : st.audio.hasValidAudio = true ∧ 1 ≤ st.audio.numAudioChannels <;>
      simp [h]
  · intro h1 h2
    rw [perform64_events, if_pos ⟨h1, h2⟩]
    simp

/-- C2, witness: the amended theorem applied to the live single-channel
state, exhibiting the heap allocation. -/
theorem C2_witness :
    RenderEvent.heapAlloc 4 ∈ (sapf_perform64 validState1 [] 1 4).events :=
  (C2_render_never_locks_but_allocates validState1 [] 1 4).2.1 rfl (by decide)

/-! ### C3 — output after a failing submission -/

/-- C3, counterexample.  After a submission whose compilation fails the
session flag is cleared, but the next render block is *not* all zeros:
with input block `[5, 6]` channel 0 carries the legacy input-plus-offset
pass-through `[5, 6]`; only channel 1 is silent.  This refutes the claim
that every subsequent render block is all zeros on every channel. -/
theorem C3_counterexample :
    failedState.audio.hasValidAudio = false ∧
    (sapf_perform64 failedState [[5, 6]] 2 2).outs = [[5, 6], zeros 2] ∧
    ([[5, 6], zeros 2] : List (List Int)) ≠ [zeros 2, zeros 2] := by
  decide

/-- C3, amended: a submission that fails to compile, or faults during
execution, clears the valid-audio flag; every subsequent render block
then takes the no-audio path, whose output is the legacy
input-plus-offset pass-through on channel 0 (when an input is
connected) and silence on every other channel — all zeros only when the
input block and offset are themselves zero. -/
theorem C3_failing_submission_clears_session
    (I : Interp) (st : SapfState) (text cb : String)
    (hv : sapf_validateInput text = some cb)
    (hl : st.lastSapfCode = none)
    (hfail : I.compile cb = none ∨
      ∃ f, I.compile cb = some f ∧ I.execute f [] = none) :
    (sapf_code I st text).1.audio.hasValidAudio = false ∧
    ∀ ins numouts n,
      (sapf_perform64 (sapf_code I st text).1 ins numouts n).outs
        = (List.range numouts).map
            (fun c => if c == 0 && 0 < ins.length then
                (List.range n).map
                  (fun i => (ins.headD []).getD i 0
                    + (sapf_code I st text).1.offset)
              else zeros n) := by
  have hva : (sapf_code I st text).1.audio.hasValidAudio = false := by
    rcases hfail with hc | ⟨f, hc, he⟩
    · simp [sapf_code, sapf_compileCode, hv, hl, hc]
    · simp [sapf_code, sapf_compileCode, sapf_executeCode, hv, hl, hc, he]
  exact ⟨hva, fun ins numouts n =>
    perform64_no_valid_audio (sapf_code I st text).1 ins numouts n hva⟩

/-- C3, witness: the amended theorem applied to the failing interpreter
and the malformed text. -/
theorem C3_witness : failedState.audio.hasValidAudio = false :=
  (C3_failing_submission_clears_session failingInterp SapfState.init
    badText badText (by decide) rfl (Or.inl rfl)).1

/-! ### C6 — mixed aggregates -/

/-- C6, counterexample.  The mixed aggregate `[audio stream, number]`
is *not* classified as a non-audio value: the handler succeeds, marks
audio valid, and publishes a single-channel session whose extractor is
the whole mixed aggregate.  This refutes the claim that a mixed
aggregate yields `NonAudioValue` with no audio session published. -/
theorem C6_counterexample :
    (sapf_handleMultiChannelAudio demoSamples AudioState.init
        mixedAgg).2.1.success = true ∧
    (sapf_handleMultiChannelAudio demoSamples AudioState.init
        mixedAgg).1.hasValidAudio = true ∧
    (sapf_handleMultiChannelAudio demoSamples AudioState.init
        mixedAgg).1.numAudioChannels = 1 ∧
    (sapf_handleMultiChannelAudio demoSamples AudioState.init
        mixedAgg).1.audioExtractor = ZIn.set demoSamples mixedAgg := by
  decide

/-- C6, amended: a finite aggregate with at least one non-audio element
among its first `min(size, 8)` elements is re-published as a
*single-channel* session whose extractor is the entire aggregate (the
"single channel fallback"), with the valid-audio flag set — it is never
reported as a non-audio value. -/
theorem C6_mixed_aggregate_single_fallback
    (samples : SapfValue → List Int) (st : AudioState) (ty : String)
    (z : Bool) (elems : List SapfValue)
    (hne : elems ≠ [])
    (hbad : ∃ c ∈ elems.take 8, isChannelAudio c = false) :
    (sapf_handleMultiChannelAudio samples st
        (SapfValue.vlist ty z true elems)).2.1.success = true ∧
    (sapf_handleMultiChannelAudio samples st
        (SapfValue.vlist ty z true elems)).1.hasValidAudio = true ∧
    (sapf_handleMultiChannelAudio samples st
        (SapfValue.vlist ty z true elems)).1.numAudioChannels = 1 ∧
    (sapf_handleMultiChannelAudio samples st
        (SapfValue.vlist ty z true elems)).1.audioExtractor
      = ZIn.set samples (SapfValue.vlist ty z true elems) := by
  have hbad2 : ∃ c ∈ elems.take (min elems.length 8),
      isChannelAudio c = false := by
    rw [take_min_eight]
    exact hbad
  have hloop := channelLoop_hasBad samples
    (elems.take (min elems.length 8)) st.audioExtractors 0 hbad2
  have hpos : 0 < min elems.length 8 := by
    have hlp := List.length_pos.mpr hne
    omega
  unfold sapf_handleMultiChannelAudio
  simp [SapfValue.isList, SapfValue.isFinite, SapfValue.elems, hpos, hloop]

/-- C6, witness: the amended theorem applied to the concrete mixed
aggregate. -/
theorem C6_witness :
    (sapf_handleMultiChannelAudio demoSamples AudioState.init
        mixedAgg).1.numAudioChannels = 1 :=
  (C6_mixed_aggregate_single_fallback demoSamples AudioState.init listName
    false [zl 0, SapfValue.real 7] (by decide)
    ⟨SapfValue.real 7, by decide, by decide⟩).2.2.1

/-! ### C4 — multi-channel classification versus rendering -/

/-- C4, counterexample.  Classifying a two-stream aggregate publishes a
two-channel session with both per-channel extractors live (4 pending
samples each); but rendering a 4-frame block pulls nothing from them:
both extractors still hold all 4 samples afterwards, and the block is
silence on both host channels.  This refutes the claim that rendering
N frames pulls N frames from each of the K per-channel handles. -/
theorem C4_counterexample :
    agg2Audio.numAudioChannels = 2 ∧
    (agg2Audio.audioExtractors.getD 0 ZIn.empty).remaining.length = 4 ∧
    (agg2Audio.audioExtractors.getD 1 ZIn.empty).remaining.length = 4 ∧
    (sapf_perform64 agg2State [] 2 4).audio.audioExtractors
      = agg2Audio.audioExtractors ∧
    (sapf_perform64 agg2State [] 2 4).outs = [zeros 4, zeros 4] := by
  decide

/-- C4, amended: a finite aggregate of `K ≤ 8` audio streams is indeed
published with channel count `K` and the `K` per-channel extractors
bound to the elements in element order, but the renderer never pulls
from the per-channel extractors: every render call leaves
`audioExtractors` untouched (it pulls only the legacy single-channel
`audioExtractor` and duplicates that mono block to all host
channels). -/
theorem C4_aggregate_publishes_K_but_renders_legacy
    (samples : SapfValue → List Int) (st : AudioState) (ty : String)
    (z : Bool) (elems : List SapfValue) (K : Nat)
    (hK : elems.length = K) (h1 : 1 ≤ K) (h8 : K ≤ 8)
    (hall : ∀ c ∈ elems, isChannelAudio c = true)
    (hex : st.audioExtractors.length = 8) :
    (sapf_handleMultiChannelAudio samples st
        (SapfValue.vlist ty z true elems)).1.numAudioChannels = (K : Int) ∧
    (sapf_handleMultiChannelAudio samples st
        (SapfValue.vlist ty z true elems)).1.hasValidAudio = true ∧
    (∀ j, j < K → ∀ d : ZIn,
      (sapf_handleMultiChannelAudio samples st
          (SapfValue.vlist ty z true elems)).1.audioExtractors.getD j d
        = ZIn.set samples (elems.getD j (SapfValue.real 0))) ∧
    (∀ s : SapfState, ∀ ins numouts n,
      (sapf_perform64 s ins numouts n).audio.audioExtractors
        = s.audio.audioExtractors) := by
  have hmin : min elems.length 8 = K := by omega
  have htakeK : elems.take K = elems := by
    rw [← hK, List.take_length]
  have htake : elems.take (min elems.length 8) = elems := by
    rw [hmin, htakeK]
  have hpos : 0 < min elems.length 8 := by omega
  have hposK : 0 < K := h1
  have hloop := channelLoop_allAudio samples elems st.audioExtractors 0 hall
    (by rw [hex]; omega)
  refine ⟨?_, ?_, ?_,
    fun s ins numouts n => perform64_keeps_channel_extractors s ins numouts n⟩
  · unfold sapf_handleMultiChannelAudio
    simp [SapfValue.isList, SapfValue.isFinite, SapfValue.elems, hpos,
      hposK, htake, htakeK, hloop.1, hmin]
  · unfold sapf_handleMultiChannelAudio
    simp [SapfValue.isList, SapfValue.isFinite, SapfValue.elems, hpos,
      hposK, htake, htakeK, hloop.1, hmin]
  · intro j hj d
    unfold sapf_handleMultiChannelAudio
    simp only [SapfValue.isList, SapfValue.isFinite, SapfValue.elems,
      Bool.and_self, if_true, hmin, htakeK, hpos, hposK, if_pos, htake,
      hloop.1, if_true]
    have hgd := hloop.2.2.2.1 j (by omega) d
    simpa using hgd

/-- C4, witness: the amended theorem applied to the concrete two-stream
aggregate. -/
theorem C4_witness :
    (sapf_handleMultiChannelAudio demoSamples AudioState.init
        (streamAgg 2)).1.numAudioChannels = (2 : Int) :=
  (C4_aggregate_publishes_K_but_renders_legacy demoSamples AudioState.init
    listName false ((List.range 2).map zl) 2 (by decide) (by decide)
    (by decide) (by decide) (by decide)).1

/-! ### C5 — channel overflow policy -/

/-- C5, counterexample.  An aggregate of 10 audio streams is truncated
to 8 channels and classified successfully, but no channel-overflow
warning is recorded anywhere: the result's error message is empty and
none of the emitted diagnostics contains the word "overflow".  This
refutes the claim that a recorded channel-overflow warning is
surfaced. -/
theorem C5_counterexample :
    (sapf_handleMultiChannelAudio demoSamples AudioState.init
        (streamAgg 10)).2.1
      = { success := true, hasValidAudio := true, numChannels := 8,
          errorMessage := "" } ∧
    (∀ m ∈ (sapf_handleMultiChannelAudio demoSamples AudioState.init
        (streamAgg 10)).2.2, firstOccur overflowWord.data m.data = none) := by
  decide

/-- C5, amended: a finite aggregate of more than 8 audio streams is
truncated to its first 8 elements in element order and published as an
8-channel session without failing, but no channel-overflow warning is
recorded: the result carries an empty error message and the complete
set of emitted diagnostics is the per-channel debug chatter plus the
ready message. -/
theorem C5_truncates_to_eight_without_warning
    (samples : SapfValue → List Int) (st : AudioState) (ty : String)
    (z : Bool) (elems : List SapfValue)
    (hlen : 8 < elems.length)
    (hall : ∀ c ∈ elems, isChannelAudio c = true)
    (hex : st.audioExtractors.length = 8) :
    (sapf_handleMultiChannelAudio samples st
        (SapfValue.vlist ty z true elems)).2.1.success = true ∧
    (sapf_handleMultiChannelAudio samples st
        (SapfValue.vlist ty z true elems)).2.1.errorMessage = "" ∧
    (sapf_handleMultiChannelAudio samples st
        (SapfValue.vlist ty z true elems)).1.numAudioChannels = 8 ∧
    (∀ j, j < 8 → ∀ d : ZIn,
      (sapf_handleMultiChannelAudio samples st
          (SapfValue.vlist ty z true elems)).1.audioExtractors.getD j d
        = ZIn.set samples (elems.getD j (SapfValue.real 0))) ∧
    (sapf_handleMultiChannelAudio samples st
        (SapfValue.vlist ty z true elems)).2.2
      = dbgNumChannelsMsg 8
        :: ((List.range 8).map (fun j => dbgChannelMsg j)
            ++ [multiReadyMsg 8]) := by
  have hmin : min elems.length 8 = 8 := by omega
  have htake8 : elems.take (min elems.length 8) = elems.take 8 :=
    take_min_eight elems
  have htlen : (elems.take 8).length = 8 := by
    simp [List.length_take]
    omega
  have hall8 : ∀ c ∈ elems.take 8, isChannelAudio c = true := fun c hc =>
    hall c (List.mem_of_mem_take hc)
  have hloop := channelLoop_allAudio samples (elems.take 8)
    st.audioExtractors 0 hall8 (by simp [htlen, hex])
  have hpos : 0 < min elems.length 8 := by omega
  have htakeGet : ∀ j, j < 8 →
      (elems.take 8).getD j (SapfValue.real 0)
        = elems.getD j (SapfValue.real 0) := by
    intro j hj
    rw [List.getD_eq_getElem?_getD, List.getD_eq_getElem?_getD,
      List.getElem?_take, if_pos hj]
  refine ⟨?_, ?_, ?_, ?_, ?_⟩
  · unfold sapf_handleMultiChannelAudio
    simp [SapfValue.isList, SapfValue.isFinite, SapfValue.elems, hpos,
      htake8, hloop.1]
  · unfold sapf_handleMultiChannelAudio
    simp [SapfValue.isList, SapfValue.isFinite, SapfValue.elems, hpos,
      htake8, hloop.1]
  · unfold sapf_handleMultiChannelAudio
    simp [SapfValue.isList, SapfValue.isFinite, SapfValue.elems, hpos,
      htake8, hloop.1, hmin]
  · intro j hj d
    unfold sapf_handleMultiChannelAudio
    simp only [SapfValue.isList, SapfValue.isFinite, SapfValue.elems,
      Bool.and_self, if_true, hpos, if_pos, htake8, hloop.1]
    have hgd := hloop.2.2.2.1 j (by omega) d
    rw [htakeGet j hj] at hgd
    simpa using hgd
  · unfold sapf_handleMultiChannelAudio
    simp only [SapfValue.isList, SapfValue.isFinite, SapfValue.elems,
      Bool.and_self, if_true, hpos, if_pos, htake8, hloop.1, hmin,
      hloop.2.1, htlen]
    simp

/-- C5, witness: the amended theorem applied to the concrete ten-stream
aggregate. -/
theorem C5_witness :
    (sapf_handleMultiChannelAudio demoSamples AudioState.init
        (streamAgg 10)).1.numAudioChannels = 8 :=
  (C5_truncates_to_eight_without_warning demoSamples AudioState.init
    listName false ((List.range 10).map zl) (by decide) (by decide)
    (by decide)).2.2.1

/-! ### C8 — compilation cache idempotence -/

/-- C8: submitting identical source text twice in a row performs
exactly one compilation and one execution.  With a fresh cache, a text
that compiles and an execution that succeeds with a non-empty stack:
the first submission compiles and executes once; the second finds
`lastSapfCode` equal to the assembled buffer, reuses the cached
artifact, performs no interpreter invocation at all, and leaves the
entire state — in particular the published audio session — exactly as
the first submission left it. -/
theorem C8_identical_resubmission_uses_cache
    (I : Interp) (st : SapfState) (text cb : String) (f : Nat)
    (v : SapfValue) (stk : List SapfValue)
    (hv : sapf_validateInput text = some cb)
    (hl : st.lastSapfCode = none)
    (hc : I.compile cb = some f)
    (he : I.execute f [] = some (v :: stk)) :
    countCompiled ((sapf_code I st text).2
        ++ (sapf_code I (sapf_code I st text).1 text).2) = 1 ∧
    countExecuted ((sapf_code I st text).2
        ++ (sapf_code I (sapf_code I st text).1 text).2) = 1 ∧
    (sapf_code I (sapf_code I st text).1 text).1 = (sapf_code I st text).1 ∧
    (sapf_code I (sapf_code I st text).1 text).2 = [] := by
  cases hst : st.stack with
  | nil =>
      refine ⟨?_, ?_, ?_, ?_⟩ <;>
        simp [sapf_code, sapf_compileCode, sapf_executeCode, hv, hl, hc, he,
          hst, countCompiled, countExecuted]
  | cons a as =>
      refine ⟨?_, ?_, ?_, ?_⟩ <;>
        simp [sapf_code, sapf_compileCode, sapf_executeCode, hv, hl, hc, he,
          hst, countCompiled, countExecuted]

/-- C8, witness: the theorem applied to the concrete interpreter and
the sine-oscillator text. -/
theorem C8_witness :
    countCompiled ((sapf_code demoInterp SapfState.init sinText).2
        ++ (sapf_code demoInterp
              (sapf_code demoInterp SapfState.init sinText).1 sinText).2)
      = 1 ∧
    countExecuted ((sapf_code demoInterp SapfState.init sinText).2
        ++ (sapf_code demoInterp
              (sapf_code demoInterp SapfState.init sinText).1 sinText).2)
      = 1 ∧
    (sapf_code demoInterp
        (sapf_code demoInterp SapfState.init sinText).1 sinText).1
      = (sapf_code demoInterp SapfState.init sinText).1 ∧
    (sapf_code demoInterp
        (sapf_code demoInterp SapfState.init sinText).1 sinText).2 = [] :=
  C8_identical_resubmission_uses_cache demoInterp SapfState.init sinText
    sinText 1 (zl 0) [] (by decide) rfl rfl rfl

/-! ### C10 — the play-command rewriting -/

/-- C10, counterexample.  The submission `"play 440 play"` begins with
the play token, yet it is not rejected: the `" play"` truncation runs
first, the rewritten buffer `"play 440"` is accepted, compiled and
executed.  This refutes the claim that a submission beginning with the
play token is rejected with an error and nothing is compiled or
executed. -/
theorem C10_counterexample :
    playTok.isPrefixOf playText.data = true ∧
    sapf_validateInput playText = some playPrefixText ∧
    (sapf_code demoInterp SapfState.init playText).2
      = [CtrlEvent.compiledCode playPrefixText,
         CtrlEvent.executedFunction 1] := by
  decide

/-- C10, amended: on the assembled non-empty code string the rewriting
behaves as follows, in this order of precedence — (1) if the play token
occurs anywhere and the space-prefixed token `" play"` occurs at
position `i > 0`, the string is truncated to its first `i` characters
(even when it also *begins* with the play token); (2) a string
containing the play token but no `" play"` occurrence is rejected
exactly when it begins with the play token; (3) a string without the
play token passes through unchanged. -/
theorem C10_play_rewriting (code : List Char) :
    ((firstOccur playTok code).isSome = true →
      ∀ i, firstOccur spacePlayTok code = some i → 0 < i →
        sapf_validatePlay code = some (code.take i)) ∧
    (firstOccur playTok code = some 0 →
      firstOccur spacePlayTok code = none →
      sapf_validatePlay code = none) ∧
    ((firstOccur playTok code).isSome = false →
      sapf_validatePlay code = some code) := by
  refine ⟨?_, ?_, ?_⟩
  · intro hsome i hsp hi
    have hlt := firstOccur_lt_length spacePlayTok code i (by decide) hsp
    have heq : (code.take i).isEmpty = false := by
      rw [Bool.eq_false_iff]
      intro hemp
      rw [List.isEmpty_iff, List.take_eq_nil_iff] at hemp
      rcases hemp with h0 | h0
      · omega
      · rw [h0] at hlt
        simp at hlt
    simp [sapf_validatePlay, hsome, hsp, heq]
  · intro h0 hnone
    have hsome : (firstOccur playTok code).isSome = true := by
      rw [h0]
      rfl
    simp [sapf_validatePlay, hsome, hnone, h0]
  · intro hnone
    simp [sapf_validatePlay, hnone]

/-- C10, witness: the truncation conjunct applied to the concrete
submission that begins with the play token. -/
theorem C10_witness :
    sapf_validatePlay playText.data = some (playText.data.take 8) :=
  (C10_play_rewriting playText.data).1 (by decide) 8 (by decide) (by decide)

end SapfTilde
